import Mathlib

set_option maxHeartbeats 1000000
set_option maxRecDepth 4000

/-!
Shallow embedding of the core of the activity-streams validator library:
the type-tag-driven transformer with its composite-class synthesizer
(src/lib/index.ts, namespace ActivityStreams), the resolver chain, link
resolution, and the resolvable array (src/lib/util/resolvable-array.ts).
-/

namespace ActivityStreams

/-- JavaScript-like values as they flow through `Transformer.transform`.
Mirrors the dynamic value space of the source: null, undefined, booleans,
numbers (integral values suffice for the embedded control flow), strings,
arrays and plain objects given as ordered field lists. -/
inductive JValue where
  | jnull
  | jundef
  | jbool (b : Bool)
  | jnum (n : Int)
  | jstr (s : String)
  | jarr (elems : List JValue)
  | jobj (fields : List (String × JValue))

/-- JavaScript Array.prototype.join with a separator: empty array joins to
the empty string, otherwise elements are interleaved with the separator. -/
def jsJoin (sep : String) : List String → String
  | [] => ""
  | [s] => s
  | s :: rest => s ++ sep ++ jsJoin sep rest

mutual
/-- JavaScript string coercion String(v), as applied when a value is used as
a property key in `this.types[t]` or stringified by Array.prototype.join. -/
def jsToString : JValue → String
  | .jnull => "null"
  | .jundef => "undefined"
  | .jbool b => cond b "true" "false"
  | .jnum n => toString n
  | .jstr s => s
  | .jarr xs => jsJoin "," (jsElemStrings xs)
  | .jobj _ => "[object Object]"

/-- Element stringification used by Array.prototype.join: null and undefined
elements become the empty string, every other element uses String(v). -/
def jsElemStrings : List JValue → List String
  | [] => []
  | .jnull :: rest => "" :: jsElemStrings rest
  | .jundef :: rest => "" :: jsElemStrings rest
  | v :: rest => jsToString v :: jsElemStrings rest
end

/-- A prototype chain. `base` stands for the anonymous empty class
(`class {}`); `layer parent own` is a class extending `parent` whose
prototype carries the own properties `own` (property name mapped to an
opaque definition identifier, standing for the property descriptor). -/
inductive Proto where
  | base
  | layer (parent : Proto) (own : List (String × Nat))
deriving DecidableEq

/-- Own properties of a prototype: `Object.getOwnPropertyNames(cls.prototype)`
sees only the topmost layer, never inherited properties. -/
def ownOf : Proto → List (String × Nat)
  | .base => []
  | .layer _ own => own

/-- `Transformer.mixinClass` (src/lib/index.ts lines 225-237): create
`class cls extends target { }` and copy every own property descriptor of
`source.prototype` onto `cls.prototype`. -/
def mixinClass (target source : Proto) : Proto :=
  .layer target (ownOf source)

/-- `Transformer.composeClass` (src/lib/index.ts lines 219-223): reduce the
ordered constructor list left to right with `mixinClass`, starting from the
anonymous empty class. -/
def composeClass (ctors : List Proto) : Proto :=
  ctors.foldl mixinClass .base

/-- JavaScript property lookup on an instance of a class with the given
prototype chain: own properties of the nearest layer win, otherwise the
chain is walked upward. -/
def protoLookup : Proto → String → Option Nat
  | .base, _ => none
  | .layer parent own, x =>
      match own.lookup x with
      | some d => some d
      | none => protoLookup parent x

/-- A registered constructor: a JavaScript object identity `bid` (fresh per
class expression evaluation) together with its prototype chain. -/
structure Blueprint where
  bid : Nat
  proto : Proto
deriving DecidableEq

/-- `TransformerOptions` with the defaults from src/lib/index.ts lines
122-127. -/
structure TransformerOptions where
  convertTextToLinks : Bool := true
  composeWithMissingConstructors : Bool := true
  enableCompositeTypes : Bool := true
  alwaysReturnValueOnTransform : Bool := false
deriving DecidableEq

/-- The mutable state of a `Transformer` instance: the tag registry
`types`, the composite cache `composites` (keyed by the joined tag list,
standing for `Symbol.for(types.join(-))`), a counter allocating fresh class
identities, and the options record. -/
structure Transformer where
  types : List (String × Blueprint)
  composites : List (String × Blueprint)
  nextId : Nat
  opts : TransformerOptions
deriving DecidableEq

/-- Results of `Transformer.transform`: the raw value passed through
unchanged, a `plainToInstance(ctor, value, options)` call (population by
the external class-transformer layer is out of scope and kept symbolic),
a `plainToInstance` call whose target is a truthy non-registered value
inherited from Object.prototype (only the `constructor` read, the Object
function, survives the `new` inside class-transformer), the `undefined`
sentinel, or an array of elementwise results. -/
inductive TOut where
  | raw (v : JValue)
  | inst (ctor : Blueprint) (v : JValue)
  | inherited (name : String) (v : JValue)
  | undef
  | arr (outs : List TOut)

/-- A thrown JavaScript error. -/
inductive JsError where
  | typeError (msg : String)
deriving DecidableEq

/-- The property names every plain object inherits from Object.prototype.
The registry `this.types` is a plain object, so reading any of these keys
on it is truthy even when the tag was never registered. -/
def objectProtoPropNames : List String :=
  ["constructor", "toString", "toLocaleString", "valueOf", "hasOwnProperty",
   "isPrototypeOf", "propertyIsEnumerable", "__proto__", "__defineGetter__",
   "__defineSetter__", "__lookupGetter__", "__lookupSetter__"]

/-- The own properties of Object.prototype, with opaque descriptor ids:
what `mixinClass` copies when the value read for the tag `constructor`
(the Object function) is mixed into a composite. -/
def objectProtoOwnProps : List (String × Nat) :=
  objectProtoPropNames.enum.map fun p => (p.2, p.1)

/-- Reading property `key` on the plain registry object `this.types`: an
own registered constructor, a truthy value inherited from
Object.prototype when the key names one of its properties, or nothing
(the undefined read). -/
inductive RegRead where
  | own (bp : Blueprint)
  | inheritedProp (name : String)
  | missing
deriving DecidableEq

/-- JavaScript property access `this.types[key]` with prototype-chain
fallback: own properties shadow Object.prototype. -/
def registryRead (reg : List (String × Blueprint)) (key : String) : RegRead :=
  match reg.lookup key with
  | some bp => .own bp
  | none => if objectProtoPropNames.contains key then .inheritedProp key else .missing

/-- JavaScript truthiness of the value read off the registry: registered
constructors and inherited Object.prototype values are truthy, undefined
is falsy. -/
def RegRead.isTruthy : RegRead → Bool
  | .own _ => true
  | .inheritedProp _ => true
  | .missing => false

/-- `composeClass` applied to the raw values read off the registry for the
filtered tag list. A registered constructor mixes in the own properties of
its prototype; the value inherited for the tag `constructor` is the Object
function, whose prototype is Object.prototype, so its own properties are
mixed in; every other inherited value (and undefined) has no usable
`prototype`, and `Object.getOwnPropertyNames` on it throws a TypeError
inside `mixinClass`, before the composite cache is updated. -/
def composeCtors (acc : Proto) : List RegRead → Except JsError Proto
  | [] => .ok acc
  | .own bp :: rest => composeCtors (mixinClass acc bp.proto) rest
  | .inheritedProp name :: rest =>
      if name = "constructor" then composeCtors (.layer acc objectProtoOwnProps) rest
      else .error (.typeError "Cannot convert undefined or null to object")
  | .missing :: _ => .error (.typeError "Cannot convert undefined or null to object")

mutual
/-- `Transformer.transform` (src/lib/index.ts lines 144-195).
Arrays are transformed elementwise (threading the composite-cache state).
`typeof null` is the string object in JavaScript, so a null value reaches
the object branch and reading `value.type` throws a TypeError.
For an object, a string `type` is read off the plain registry object with
prototype-chain fallback: a registered tag populates an instance; an
unregistered tag that names an Object.prototype property is still truthy,
so `plainToInstance` runs on the inherited value — the `constructor` read
is the Object function and yields an instance, every other inherited
value is not a constructor and `new` throws a TypeError; any other
unregistered tag passes the value through. An array `type` (with
`enableCompositeTypes`) is filtered by the same truthy registry read
(property access coerces each element with String(t)), keyed by
`join(-)`, and served from the composite cache or freshly composed;
composing throws on a non-`constructor` inherited read, before the cache
store. `ctorsOpt` maps the already-filtered tag list through the
registry, so in the source `ctors.length !== types.length` compares a
list with its own map and the guard below it is dead. All remaining
shapes fall through to the raw value. -/
def transform (tr : Transformer) : JValue → Except JsError (Transformer × TOut)
  | .jnull => .error (.typeError "Cannot read properties of null (reading type)")
  | .jarr xs => do
      let p ← transformList tr xs
      .ok (p.1, .arr p.2)
  | .jobj fields =>
      match fields.lookup "type" with
      | some (.jstr t) =>
          match registryRead tr.types t with
          | .own bp => .ok (tr, .inst bp (.jobj fields))
          | .inheritedProp name =>
              if name = "constructor" then .ok (tr, .inherited name (.jobj fields))
              else .error (.typeError "is not a constructor")
          | .missing => .ok (tr, .raw (.jobj fields))
      | some (.jarr ts) =>
          if tr.opts.enableCompositeTypes then
            let keptTags := ts.filter fun t => (registryRead tr.types (jsToString t)).isTruthy
            let key := jsJoin "-" (jsElemStrings keptTags)
            if keptTags.isEmpty then .ok (tr, .raw (.jobj fields))
            else
              match tr.composites.lookup key with
              | some ctor => .ok (tr, .inst ctor (.jobj fields))
              | none =>
                  let ctorsOpt := keptTags.map fun t => registryRead tr.types (jsToString t)
                  match composeCtors .base ctorsOpt with
                  | .error e => .error e
                  | .ok proto =>
                      let cls : Blueprint := ⟨tr.nextId, proto⟩
                      let tr2 : Transformer :=
                        { tr with composites := (key, cls) :: tr.composites, nextId := tr.nextId + 1 }
                      if !tr.opts.composeWithMissingConstructors && ctorsOpt.length != keptTags.length then
                        .ok (tr2, if tr.opts.alwaysReturnValueOnTransform then .raw (.jobj fields) else .undef)
                      else
                        .ok (tr2, .inst cls (.jobj fields))
          else .ok (tr, .raw (.jobj fields))
      | _ => .ok (tr, .raw (.jobj fields))
  | v => .ok (tr, .raw v)

/-- Elementwise transformation of an array, left to right, threading the
transformer state; a thrown error propagates (aborting the whole array). -/
def transformList (tr : Transformer) : List JValue → Except JsError (Transformer × List TOut)
  | [] => .ok (tr, [])
  | v :: rest => do
      let p ← transform tr v
      let q ← transformList p.1 rest
      .ok (q.1, p.2 :: q.2)
end

/-- A composite document declaring the given ordered list of type tags. -/
def compositeDoc (tags : List String) : JValue :=
  .jobj [("type", .jarr (tags.map .jstr))]

/-- A transformer with an empty registry and cache and default options. -/
def emptyTransformer : Transformer :=
  { types := [], composites := [], nextId := 0, opts := {} }

/-- Whether an `Except` value is a normal return (no exception thrown). -/
def exceptOk : Except ε α → Bool
  | .ok _ => true
  | .error _ => false

mutual
/-- Inputs on which `transform` neither reads a property of null nor
meets a declared type tag that collides with an Object.prototype property
name (such tags are truthy registry reads even when unregistered): the
value is not null itself, no element on the array spine it recurses into
is null, and every string tag and every coerced element of a tag list
avoids `objectProtoPropNames`. Object field values are never inspected by
`transform` itself. -/
def safeInput : JValue → Bool
  | .jnull => false
  | .jarr xs => safeList xs
  | .jobj fields =>
      match fields.lookup "type" with
      | some (.jstr t) => !objectProtoPropNames.contains t
      | some (.jarr ts) => ts.all fun x => !objectProtoPropNames.contains (jsToString x)
      | _ => true
  | _ => true

/-- Elementwise `safeInput` over an array. -/
def safeList : List JValue → Bool
  | [] => true
  | v :: rest => safeInput v && safeList rest
end

/-- An element of a `ResolvableArray`: either it exposes a resolve
capability (`typeof item.resolve` is a function) whose outcome under a
given resolver is `run`, completing at an abstract tick `time`, or it is a
plain value without that capability. -/
inductive RItem (ρ α : Type) where
  | resolvable (run : ρ → α) (time : Nat)
  | plain (v : α)

/-- The per-element body of `ResolvableArray.resolve`
(src/lib/util/resolvable-array.ts lines 10-15): an element with a resolve
capability awaits `item.resolve(customResolver)`; any other element is
returned unchanged (immediately, tick 0). -/
def elemResolve (r : ρ) : RItem ρ α → Nat × α
  | .resolvable run t => (t, run r)
  | .plain v => (0, v)

/-- Promise.all over already-issued concurrent tasks: the combined task
completes when the slowest completes, and collects the results by the
index at which each task was issued, not by completion order. -/
def promiseAll (ps : List (Nat × α)) : Nat × List α :=
  (ps.foldl (fun m p => Nat.max m p.1) 0, ps.map Prod.snd)

/-- `ResolvableArray.resolve` (src/lib/util/resolvable-array.ts lines
8-17): map every element through the resolve-or-pass-through body and
await all of them together. -/
def resolvableArrayResolve (items : List (RItem ρ α)) (r : ρ) : Nat × List α :=
  promiseAll (items.map (elemResolve r))

/-- Change only the completion tick of a resolvable element, leaving its
outcome and all plain elements untouched. -/
def retimeItem (g : Nat → Nat) : RItem ρ α → RItem ρ α
  | .resolvable run t => .resolvable run (g t)
  | .plain v => .plain v

/-- The resolution-relevant state of an `ActivityStreamsLink` instance:
`href` (possibly unset), the stored `_asmeta._resolved` value, and the
`_asmeta._href_only` flag. -/
structure LinkData (α : Type) where
  href : Option String
  resolvedValue : Option α
  hrefOnly : Bool

/-- The error thrown by `ActivityStreamsLink.resolve` when href is unset. -/
inductive LinkError where
  | hrefNotSet
deriving DecidableEq

/-- `ActivityStreamsLink.resolve` (src/lib/index.ts lines 325-333): throw
if `href` is undefined; otherwise call `(customResolver || resolver)
.handle(this.href)`, store the outcome into `_asmeta._resolved`
(overwriting any prior resolution), and return it. A resolver is embedded
as the function taking a request string to its handled outcome. -/
def linkResolve (l : LinkData α) (customResolver : Option (String → α))
    (globalResolver : String → α) : Except LinkError (LinkData α × α) :=
  match l.href with
  | none => .error .hrefNotSet
  | some h =>
      let out := (customResolver.getD globalResolver) h
      .ok ({ l with resolvedValue := some out }, out)

/-- The observable outcome of the network fetch performed by
`HttpFetchResolver.handle`: a response with an HTTP status and decoded
JSON body, or a transport failure (also covering a body that fails to
decode, which throws inside the same try block). -/
inductive FetchOutcome where
  | success (status : Nat) (body : JValue)
  | netFailure

/-- `Resolver.handle` (src/lib/index.ts lines 68-74): forward the request
verbatim to the successor when one is set, otherwise return the request
string itself. Results are either a transformed value or a bare string. -/
def resolverBaseHandle (next : Option (String → TOut ⊕ String)) (request : String) :
    TOut ⊕ String :=
  match next with
  | some n => n request
  | none => .inr request

/-- `HttpFetchResolver.handle` (src/lib/index.ts lines 80-95): fetch the
href; a status other than 200 throws inside the try block, and the catch
delegates to `super.handle(href)`; a transport failure does the same; on
status 200 the decoded body is fed through `transform` (a throw from
`transform` is caught by the same catch and also delegates). The global
transformer cache update made by that call is not observed through the
returned value and is dropped here. -/
def httpFetchHandle (tr : Transformer) (outcome : FetchOutcome)
    (next : Option (String → TOut ⊕ String)) (href : String) : TOut ⊕ String :=
  match outcome with
  | .success status body =>
      if status ≠ 200 then resolverBaseHandle next href
      else
        match transform tr body with
        | .ok p => .inl p.2
        | .error _ => resolverBaseHandle next href
  | .netFailure => resolverBaseHandle next href

/-- The successor wiring of a population of resolver chain nodes, each
node named by an identifier: `succ n` is the node stored in the private
`next` field of node `n`, if any. -/
structure ChainState where
  succ : Nat → Option Nat

/-- `Resolver.setNext` (src/lib/index.ts lines 63-66): `this.next =
handler; return handler;` — overwrite the single successor field of the
receiver and return the handler, not the receiver. -/
def setNext (st : ChainState) (receiver handler : Nat) : ChainState × Nat :=
  ({ succ := fun n => if n = receiver then some handler else st.succ n }, handler)

/-- Read the successor field of a node. -/
def getNext (st : ChainState) (node : Nat) : Option Nat :=
  st.succ node

/-- A chain state in which no node has a successor. -/
def emptyChain : ChainState :=
  { succ := fun _ => none }

/-- The object-family class factories of src/lib/index.ts. -/
inductive ObjectFamily where
  | objectF
  | documentF
  | activityF
  | intransitiveActivityF
  | collectionF
  | collectionPageF

/-- `ActivityStreamsObject.resolve` (src/lib/index.ts lines 474-476):
`return this` — the resolver argument is ignored. -/
def objectResolve (o : α) (_resolver : Option ρ) : α := o

/-- The resolve body used by each object-family class: `object` defines it
directly; `document`, `activity`, `intransitiveActivity`, `collection`
and `collectionPage` declare no override and inherit it from
`ActivityStreamsObject` through their extends chains. -/
def familyResolve (fam : ObjectFamily) (o : α) (r : Option ρ) : α :=
  match fam with
  | .objectF => objectResolve o r
  | .documentF => objectResolve o r
  | .activityF => objectResolve o r
  | .intransitiveActivityF => objectResolve o r
  | .collectionF => objectResolve o r
  | .collectionPageF => objectResolve o r

/-- A transformer knowing only tag A, with `composeWithMissingConstructors`
switched off and `alwaysReturnValueOnTransform` left at its default false. -/
def oneMissingTagTransformer : Transformer :=
  { types := [("A", ⟨0, .base⟩)], composites := [], nextId := 1,
    opts := { convertTextToLinks := true, composeWithMissingConstructors := false,
              enableCompositeTypes := true, alwaysReturnValueOnTransform := false } }

/-- A transformer registering the two tags a-a and a, whose dash-joined
composite keys collide between the two orders. -/
def collisionTransformer : Transformer :=
  { types := [("a-a", ⟨0, .base⟩), ("a", ⟨1, .base⟩)], composites := [], nextId := 2, opts := {} }

/-- The collision transformer after one composite transform of the tag
list [a-a, a]: the synthesized class ⟨2, _⟩ is cached under a-a-a. -/
def collisionAfterFirst : Transformer :=
  { collisionTransformer with
    composites := [("a-a-a", ⟨2, Proto.layer (Proto.layer .base []) []⟩)], nextId := 3 }

/-- A transformer registering distinct tags A and B, default options. -/
def twoTagTransformer : Transformer :=
  { types := [("A", ⟨0, .base⟩), ("B", ⟨1, .base⟩)], composites := [], nextId := 2, opts := {} }

/-- A demo resolver used to instantiate resolution theorems. -/
def demoResolver : String → Nat := String.length

/-- A link with href set and a prior resolution already stored. -/
def demoLink : LinkData Nat :=
  { href := some "http://a.example/", resolvedValue := some 7, hrefOnly := false }

/-- A link whose href is unset. -/
def unsetLink : LinkData Nat :=
  { href := none, resolvedValue := some 7, hrefOnly := true }

@[simp] theorem exceptOk_ok (a : α) : exceptOk (.ok a : Except ε α) = true := rfl

@[simp] theorem exceptOk_error (e : ε) : exceptOk (.error e : Except ε α) = false := rfl

/-- A registry read of a key that is no Object.prototype property name is
an own hit or undefined. -/
theorem registryRead_of_not_proto (reg : List (String × Blueprint)) (t : String)
    (h : objectProtoPropNames.contains t = false) :
    registryRead reg t = ((reg.lookup t).map RegRead.own).getD .missing := by
  have hmem : t ∉ objectProtoPropNames := by simpa using h
  rcases hl : reg.lookup t with _ | bp <;> simp [registryRead, hl, hmem]

/-- Composing succeeds when every registry read in the list is an own
registered constructor. -/
theorem composeCtors_ok_of_own :
    ∀ (cs : List RegRead) (acc : Proto),
      (∀ c ∈ cs, ∃ bp, c = RegRead.own bp) → ∃ p, composeCtors acc cs = .ok p := by
  intro cs
  induction cs with
  | nil => exact fun acc _ => ⟨acc, rfl⟩
  | cons c rest ih =>
      intro acc h
      obtain ⟨bp, rfl⟩ := h c (by simp)
      simpa [composeCtors] using ih (mixinClass acc bp.proto) fun w hw => h w (by simp [hw])

/-- Reading off a safe object whose type field is a single string tag:
the tag avoids Object.prototype property names. -/
theorem safeInput_jobj_jstr (fields : List (String × JValue)) (t : String)
    (h : fields.lookup "type" = some (.jstr t))
    (hs : safeInput (.jobj fields) = true) :
    objectProtoPropNames.contains t = false := by
  simp only [safeInput] at hs
  split at hs
  all_goals simp_all [Bool.not_eq_true']

/-- Reading off a safe object whose type field is a tag list: every
coerced element avoids Object.prototype property names. -/
theorem safeInput_jobj_jarr (fields : List (String × JValue)) (ts : List JValue)
    (h : fields.lookup "type" = some (.jarr ts))
    (hs : safeInput (.jobj fields) = true) :
    ∀ x ∈ ts, objectProtoPropNames.contains (jsToString x) = false := by
  simp only [safeInput] at hs
  split at hs
  all_goals simp_all [List.all_eq_true, Bool.not_eq_true']

/-- Every branch of the object case of `transform` returns normally when
the declared tags avoid Object.prototype property names. -/
theorem transform_jobj_ok (tr : Transformer) (fields : List (String × JValue))
    (hsafe : safeInput (.jobj fields) = true) :
    exceptOk (transform tr (.jobj fields)) = true := by
  simp only [transform]
  split
  · rename_i t heq
    have hcont := safeInput_jobj_jstr fields t heq hsafe
    have hmem : t ∉ objectProtoPropNames := by simpa using hcont
    rcases hl : tr.types.lookup t with _ | bp
    · simp [registryRead, hl, hmem]
    · simp [registryRead, hl]
  · rename_i ts heq
    have hsts := safeInput_jobj_jarr fields ts heq hsafe
    have hall : ∀ c ∈ (ts.filter fun x =>
        (registryRead tr.types (jsToString x)).isTruthy).map
          (fun x => registryRead tr.types (jsToString x)), ∃ bp, c = RegRead.own bp := by
      intro c hc
      simp only [List.mem_map, List.mem_filter] at hc
      obtain ⟨x, ⟨hx, htr⟩, rfl⟩ := hc
      have hcont := hsts x hx
      rw [registryRead_of_not_proto tr.types (jsToString x) hcont] at htr ⊢
      rcases hl : tr.types.lookup (jsToString x) with _ | bp
      · rw [hl] at htr; simp [RegRead.isTruthy] at htr
      · exact ⟨bp, by simp [hl]⟩
    obtain ⟨p, hp⟩ := composeCtors_ok_of_own _ .base hall
    repeat' split
    all_goals first | rfl | simp_all
  · rfl

/-- Claim C1. The spec states that with `composeWithMissingConstructors`
set to false, a composite document with an unregistered tag yields the
unchanged raw value or the undefined sentinel. The code cannot do this:
`ctors` is the registry image of the already-filtered tag list, so
`ctors.length !== types.length` is always false and the sentinel branch is
dead. Here tag B is unregistered, the flag is false, the sentinel choice
is false, and transform still returns a composite instance synthesized
from the registered tag alone. -/
theorem claim1_missing_constructor_option_dead :
    oneMissingTagTransformer.opts.composeWithMissingConstructors = false ∧
    oneMissingTagTransformer.opts.alwaysReturnValueOnTransform = false ∧
    oneMissingTagTransformer.types.lookup "B" = none ∧
    transform oneMissingTagTransformer (compositeDoc ["A", "B"]) =
      .ok ({ oneMissingTagTransformer with
               composites := [("A", ⟨1, Proto.layer .base []⟩)], nextId := 2 },
           .inst ⟨1, Proto.layer .base []⟩ (compositeDoc ["A", "B"])) := by
  refine ⟨rfl, rfl, rfl, ?_⟩
  simp [transform, oneMissingTagTransformer, compositeDoc, jsToString, jsJoin, jsElemStrings,
        registryRead, RegRead.isTruthy, composeCtors, objectProtoPropNames,
        mixinClass, ownOf, List.lookup, List.filter]

/-- Claim C3, counterexample. The cache key is the dash-join of the
ordered filtered tag list, and joining is not injective: with both tags
a-a and a registered, the lists [a-a, a] and [a, a-a] both produce the key
a-a-a. After transforming a document typed [a-a, a], a document typed with
the reversed list [a, a-a] is served the very same cached blueprint
(identity 2, state unchanged), contradicting the claim that the reversed
list always yields a different blueprint. -/
theorem claim3_counterexample_key_collision :
    transform collisionTransformer (compositeDoc ["a-a", "a"]) =
      .ok (collisionAfterFirst,
           .inst ⟨2, Proto.layer (Proto.layer .base []) []⟩ (compositeDoc ["a-a", "a"])) ∧
    transform collisionAfterFirst (compositeDoc ["a", "a-a"]) =
      .ok (collisionAfterFirst,
           .inst ⟨2, Proto.layer (Proto.layer .base []) []⟩ (compositeDoc ["a", "a-a"])) := by
  constructor
  · simp [transform, collisionTransformer, collisionAfterFirst, compositeDoc, jsToString,
          jsJoin, jsElemStrings, registryRead, RegRead.isTruthy, composeCtors,
          objectProtoPropNames, mixinClass, ownOf, List.lookup, List.filter]
  · simp [transform, collisionTransformer, collisionAfterFirst, compositeDoc, jsToString,
          jsJoin, jsElemStrings, registryRead, RegRead.isTruthy, objectProtoPropNames,
          List.lookup, List.filter]

/-- Claim C3, amended: starting from a fresh composite cache with both
tags registered and composite handling enabled, a second document with the
same ordered tag list [A, B] reuses the identical synthesized blueprint
(same identity, without touching the state), and the reversed list [B, A]
gets a different blueprint provided its dash-joined cache key differs
(which the counterexample shows is not automatic). -/
theorem claim3_composite_cache_identity (tr : Transformer) (A B : String) (bpA bpB : Blueprint)
    (hA : tr.types.lookup A = some bpA) (hB : tr.types.lookup B = some bpB)
    (hEnable : tr.opts.enableCompositeTypes = true)
    (hFresh : tr.composites = [])
    (hKey : A ++ "-" ++ B ≠ B ++ "-" ++ A) :
    transform tr (compositeDoc [A, B]) =
      .ok ({ tr with
               composites := [(A ++ "-" ++ B, ⟨tr.nextId, composeClass [bpA.proto, bpB.proto]⟩)],
               nextId := tr.nextId + 1 },
           .inst ⟨tr.nextId, composeClass [bpA.proto, bpB.proto]⟩ (compositeDoc [A, B])) ∧
    transform
        { tr with
            composites := [(A ++ "-" ++ B, ⟨tr.nextId, composeClass [bpA.proto, bpB.proto]⟩)],
            nextId := tr.nextId + 1 }
        (compositeDoc [A, B]) =
      .ok ({ tr with
               composites := [(A ++ "-" ++ B, ⟨tr.nextId, composeClass [bpA.proto, bpB.proto]⟩)],
               nextId := tr.nextId + 1 },
           .inst ⟨tr.nextId, composeClass [bpA.proto, bpB.proto]⟩ (compositeDoc [A, B])) ∧
    transform
        { tr with
            composites := [(A ++ "-" ++ B, ⟨tr.nextId, composeClass [bpA.proto, bpB.proto]⟩)],
            nextId := tr.nextId + 1 }
        (compositeDoc [B, A]) =
      .ok ({ tr with
               composites :=
                 [(B ++ "-" ++ A, ⟨tr.nextId + 1, composeClass [bpB.proto, bpA.proto]⟩),
                  (A ++ "-" ++ B, ⟨tr.nextId, composeClass [bpA.proto, bpB.proto]⟩)],
               nextId := tr.nextId + 1 + 1 },
           .inst ⟨tr.nextId + 1, composeClass [bpB.proto, bpA.proto]⟩ (compositeDoc [B, A])) ∧
    (⟨tr.nextId + 1, composeClass [bpB.proto, bpA.proto]⟩ : Blueprint) ≠
      ⟨tr.nextId, composeClass [bpA.proto, bpB.proto]⟩ := by
  have hK2 : ((A ++ "-" ++ B) == (B ++ "-" ++ A)) = false := beq_eq_false_iff_ne.mpr hKey
  have hK3 : ((B ++ "-" ++ A) == (A ++ "-" ++ B)) = false := beq_eq_false_iff_ne.mpr (Ne.symm hKey)
  refine ⟨?_, ?_, ?_, ?_⟩
  · simp [transform, compositeDoc, jsToString, jsJoin, jsElemStrings, hA, hB, hEnable, hFresh,
          registryRead, RegRead.isTruthy, composeCtors, composeClass, mixinClass,
          List.lookup, List.filter]
  · simp [transform, compositeDoc, jsToString, jsJoin, jsElemStrings, hA, hB, hEnable,
          registryRead, RegRead.isTruthy, List.lookup, List.filter]
  · simp [transform, compositeDoc, jsToString, jsJoin, jsElemStrings, hA, hB, hEnable,
          registryRead, RegRead.isTruthy, composeCtors, composeClass, mixinClass,
          List.lookup, List.filter, hK3]
  · simp only [ne_eq, Blueprint.mk.injEq, not_and]
    intro h
    omega

theorem claim3_witness :
    transform twoTagTransformer (compositeDoc ["A", "B"]) =
      .ok ({ twoTagTransformer with
               composites :=
                 [("A" ++ "-" ++ "B",
                   ⟨twoTagTransformer.nextId,
                    composeClass [Proto.base, Proto.base]⟩)],
               nextId := twoTagTransformer.nextId + 1 },
           .inst ⟨twoTagTransformer.nextId, composeClass [Proto.base, Proto.base]⟩
             (compositeDoc ["A", "B"])) ∧
    transform
        { twoTagTransformer with
            composites :=
              [("A" ++ "-" ++ "B",
                ⟨twoTagTransformer.nextId, composeClass [Proto.base, Proto.base]⟩)],
            nextId := twoTagTransformer.nextId + 1 }
        (compositeDoc ["A", "B"]) =
      .ok ({ twoTagTransformer with
               composites :=
                 [("A" ++ "-" ++ "B",
                   ⟨twoTagTransformer.nextId, composeClass [Proto.base, Proto.base]⟩)],
               nextId := twoTagTransformer.nextId + 1 },
           .inst ⟨twoTagTransformer.nextId, composeClass [Proto.base, Proto.base]⟩
             (compositeDoc ["A", "B"])) ∧
    transform
        { twoTagTransformer with
            composites :=
              [("A" ++ "-" ++ "B",
                ⟨twoTagTransformer.nextId, composeClass [Proto.base, Proto.base]⟩)],
            nextId := twoTagTransformer.nextId + 1 }
        (compositeDoc ["B", "A"]) =
      .ok ({ twoTagTransformer with
               composites :=
                 [("B" ++ "-" ++ "A",
                   ⟨twoTagTransformer.nextId + 1, composeClass [Proto.base, Proto.base]⟩),
                  ("A" ++ "-" ++ "B",
                   ⟨twoTagTransformer.nextId, composeClass [Proto.base, Proto.base]⟩)],
               nextId := twoTagTransformer.nextId + 1 + 1 },
           .inst ⟨twoTagTransformer.nextId + 1, composeClass [Proto.base, Proto.base]⟩
             (compositeDoc ["B", "A"])) ∧
    (⟨twoTagTransformer.nextId + 1, composeClass [Proto.base, Proto.base]⟩ : Blueprint) ≠
      ⟨twoTagTransformer.nextId, composeClass [Proto.base, Proto.base]⟩ :=
  claim3_composite_cache_identity twoTagTransformer "A" "B" ⟨0, .base⟩ ⟨1, .base⟩
    rfl rfl rfl rfl (by decide)

/-- Claim C4. `composeClass` folds the ordered constructor list left to
right with `mixinClass`, so the own properties of the later constituent B
sit on the outermost prototype layer of the composite of [A, B]; property
lookup on a populated instance therefore finds the definition of B for any
field B defines, even when A defines the same field (last-applied wins). -/
theorem claim4_compose_last_wins (A B : Proto) (x : String) (d : Nat)
    (hB : (ownOf B).lookup x = some d) :
    protoLookup (composeClass [A, B]) x = some d := by
  simp [composeClass, mixinClass, protoLookup, hB]

theorem claim4_witness :
    (ownOf (Proto.layer .base [("x", 2)])).lookup "x" = some 2 ∧
    protoLookup
      (composeClass [Proto.layer .base [("x", 1)], Proto.layer .base [("x", 2)]]) "x" =
      some 2 :=
  ⟨rfl, claim4_compose_last_wins (Proto.layer .base [("x", 1)])
    (Proto.layer .base [("x", 2)]) "x" 2 rfl⟩

/-- Claim C5, counterexample. The tag constructor is unregistered (the
registry is empty), yet reading it on the plain registry object is truthy
— Object.prototype.constructor, the Object function — so the single-tag
document is handed to `plainToInstance` with that inherited value instead
of being returned unchanged; and the composite document with the same
sole tag is kept by the truthy filter and synthesized into a composite
instance, mutating the cache. Neither call returns the input value. -/
theorem claim5_counterexample_inherited_tag :
    transform emptyTransformer (.jobj [("type", .jstr "constructor")]) =
      .ok (emptyTransformer,
           .inherited "constructor" (.jobj [("type", .jstr "constructor")])) ∧
    transform emptyTransformer (compositeDoc ["constructor"]) =
      .ok ({ emptyTransformer with
               composites := [("constructor", ⟨0, Proto.layer .base objectProtoOwnProps⟩)],
               nextId := 1 },
           .inst ⟨0, Proto.layer .base objectProtoOwnProps⟩ (compositeDoc ["constructor"])) := by
  constructor
  · simp [transform, registryRead, List.lookup, objectProtoPropNames]
  · simp [transform, emptyTransformer, compositeDoc, jsToString, jsJoin, jsElemStrings,
          registryRead, RegRead.isTruthy, composeCtors, objectProtoPropNames,
          List.lookup, List.filter]

/-- Claim C5, amended: a document whose single string tag is neither
registered nor a property name inherited from Object.prototype, and a
composite document none of whose tags is registered or inherited (so the
truthy filter leaves nothing), are both returned unchanged, whatever the
options. Tags that collide with Object.prototype property names, such as
constructor, are truthy reads and escape the pass-through. -/
theorem claim5_unregistered_passthrough (tr : Transformer) (f1 f2 : List (String × JValue))
    (t : String) (ts : List JValue)
    (h1 : f1.lookup "type" = some (.jstr t)) (h2 : tr.types.lookup t = none)
    (h2p : objectProtoPropNames.contains t = false)
    (h3 : f2.lookup "type" = some (.jarr ts))
    (h4 : ∀ x ∈ ts, tr.types.lookup (jsToString x) = none ∧
            objectProtoPropNames.contains (jsToString x) = false) :
    transform tr (.jobj f1) = .ok (tr, .raw (.jobj f1)) ∧
    transform tr (.jobj f2) = .ok (tr, .raw (.jobj f2)) := by
  constructor
  · have hmem : t ∉ objectProtoPropNames := by simpa using h2p
    simp [transform, h1, registryRead, h2, hmem]
  · have hfil : ts.filter (fun x => (registryRead tr.types (jsToString x)).isTruthy) = [] := by
      rw [List.filter_eq_nil_iff]
      intro a ha
      have hmem : jsToString a ∉ objectProtoPropNames := by simpa using (h4 a ha).2
      simp [registryRead, (h4 a ha).1, hmem, RegRead.isTruthy]
    cases hen : tr.opts.enableCompositeTypes
    · simp [transform, h3, hen]
    · simp [transform, h3, hen, hfil]

theorem claim5_witness :
    transform emptyTransformer (.jobj [("type", .jstr "Note")]) =
      .ok (emptyTransformer, .raw (.jobj [("type", .jstr "Note")])) ∧
    transform emptyTransformer (.jobj [("type", .jarr [.jstr "A"])]) =
      .ok (emptyTransformer, .raw (.jobj [("type", .jarr [.jstr "A"])])) :=
  claim5_unregistered_passthrough emptyTransformer [("type", .jstr "Note")]
    [("type", .jarr [.jstr "A"])] "Note" [.jstr "A"]
    rfl rfl (by decide) rfl
    (by
      intro x hx
      simp only [List.mem_singleton] at hx
      subst hx
      exact ⟨rfl, by simp [jsToString, objectProtoPropNames]⟩)

/-- Claim C6. Resolving a resolvable sequence yields a sequence of the
same length whose element at index i is exactly the resolution of the
input element at index i (resolve capability awaited with the given
resolver, plain elements passed through unchanged), and the result is
invariant under arbitrary changes to the completion ticks of the
elements, so completion order never affects placement. -/
theorem claim6_resolvable_array_resolve_spec {ρ α : Type} (items : List (RItem ρ α)) (r : ρ) :
    (resolvableArrayResolve items r).2.length = items.length ∧
    (∀ i : Nat, (resolvableArrayResolve items r).2[i]? =
      (items[i]?).map fun it => (elemResolve r it).2) ∧
    (∀ g : Nat → Nat,
      (resolvableArrayResolve (items.map (retimeItem g)) r).2 =
        (resolvableArrayResolve items r).2) := by
  refine ⟨?_, ?_, ?_⟩
  · simp [resolvableArrayResolve, promiseAll]
  · intro i
    simp only [resolvableArrayResolve, promiseAll, List.getElem?_map,
      Option.map_map]
    rfl
  · intro g
    simp only [resolvableArrayResolve, promiseAll, List.map_map]
    apply List.map_congr_left
    intro it _
    cases it <;> simp [Function.comp, retimeItem, elemResolve]

/-- Claim C7. Link resolution fails exactly when href is unset: with href
set to s it returns normally, invoking the custom resolver when supplied
and the global default otherwise on s, storing the outcome over any prior
resolution and returning it; with href unset it throws, whatever was
previously resolved. -/
theorem claim7_link_resolve_spec {α : Type} (l lu : LinkData α)
    (c : Option (String → α)) (g : String → α) (s : String)
    (hs : l.href = some s) (hu : lu.href = none) :
    linkResolve l c g =
      .ok ({ l with resolvedValue := some ((c.getD g) s) }, (c.getD g) s) ∧
    linkResolve lu c g = .error .hrefNotSet := by
  constructor
  · simp [linkResolve, hs]
  · simp [linkResolve, hu]

theorem claim7_witness :
    linkResolve demoLink none demoResolver =
      .ok ({ demoLink with
               resolvedValue := some (((none : Option (String → Nat)).getD demoResolver)
                 "http://a.example/") },
           ((none : Option (String → Nat)).getD demoResolver) "http://a.example/") ∧
    linkResolve unsetLink none demoResolver = .error .hrefNotSet :=
  claim7_link_resolve_spec demoLink unsetLink none demoResolver "http://a.example/" rfl rfl

/-- Claim C8, counterexample. HTTP 201 is a success status and its body
transforms without error, yet `HttpFetchResolver.handle` checks
`status !== 200` and therefore delegates to the terminal pass-through,
returning the bare href instead of feeding the body through the
transformer. -/
theorem claim8_counterexample_status201 :
    (200 ≤ 201 ∧ 201 < 300) ∧
    exceptOk (transform emptyTransformer (.jobj [("type", .jstr "Note")])) = true ∧
    httpFetchHandle emptyTransformer (.success 201 (.jobj [("type", .jstr "Note")]))
        none "http://a.example/x" =
      .inr "http://a.example/x" := by
  refine ⟨by omega, ?_, ?_⟩
  · exact transform_jobj_ok emptyTransformer [("type", .jstr "Note")]
      (by simp [safeInput, objectProtoPropNames])
  · simp [httpFetchHandle, resolverBaseHandle]

/-- Claim C8, amended: any status other than 200 (including success
statuses other than 200) and any transport failure delegate to the normal
chain behaviour — forward to the successor, or return the href unchanged
when there is none — and never surface an error; on status 200 the decoded
body is fed through the transformer and its result returned. -/
theorem claim8_http_fetch_spec (tr tr2 : Transformer) (status : Nat) (body : JValue)
    (next : Option (String → TOut ⊕ String)) (href : String) (o : TOut)
    (hne : status ≠ 200) (hok : transform tr body = .ok (tr2, o)) :
    httpFetchHandle tr (.success status body) next href = resolverBaseHandle next href ∧
    httpFetchHandle tr .netFailure next href = resolverBaseHandle next href ∧
    httpFetchHandle tr (.success 200 body) next href = .inl o ∧
    resolverBaseHandle none href = .inr href := by
  refine ⟨?_, rfl, ?_, rfl⟩
  · simp [httpFetchHandle, hne]
  · simp [httpFetchHandle, hok]

theorem claim8_witness :
    httpFetchHandle emptyTransformer (.success 404 (.jstr "b")) none "http://a.example/x" =
      resolverBaseHandle none "http://a.example/x" ∧
    httpFetchHandle emptyTransformer .netFailure none "http://a.example/x" =
      resolverBaseHandle none "http://a.example/x" ∧
    httpFetchHandle emptyTransformer (.success 200 (.jstr "b")) none "http://a.example/x" =
      .inl (.raw (.jstr "b")) ∧
    resolverBaseHandle none "http://a.example/x" = .inr "http://a.example/x" :=
  claim8_http_fetch_spec emptyTransformer emptyTransformer 404 (.jstr "b") none
    "http://a.example/x" (.raw (.jstr "b")) (by omega) (by simp [transform])

/-- Claim C9. `setNext` overwrites any prior successor of the receiver and
returns the handler, the newly attached node. Consequently the fluent
chain a.setNext(b).setNext(c) applies the second call to b: afterwards a
points at b and b points at c, and a does not point at c. -/
theorem claim9_set_next_spec (st : ChainState) (a b c : Nat)
    (hab : a ≠ b) (hbc : b ≠ c) :
    (setNext st a b).2 = b ∧
    getNext (setNext st a b).1 a = some b ∧
    getNext (setNext (setNext st a b).1 (setNext st a b).2 c).1 a = some b ∧
    getNext (setNext (setNext st a b).1 (setNext st a b).2 c).1 b = some c ∧
    getNext (setNext (setNext st a b).1 (setNext st a b).2 c).1 a ≠ some c := by
  refine ⟨rfl, ?_, ?_, ?_, ?_⟩
  · simp [setNext, getNext]
  · simp [setNext, getNext, hab]
  · simp [setNext, getNext]
  · simp [setNext, getNext, hab, hbc]

theorem claim9_witness :
    (setNext emptyChain 0 1).2 = 1 ∧
    getNext (setNext emptyChain 0 1).1 0 = some 1 ∧
    getNext (setNext (setNext emptyChain 0 1).1 (setNext emptyChain 0 1).2 2).1 0 = some 1 ∧
    getNext (setNext (setNext emptyChain 0 1).1 (setNext emptyChain 0 1).2 2).1 1 = some 2 ∧
    getNext (setNext (setNext emptyChain 0 1).1 (setNext emptyChain 0 1).2 2).1 0 ≠ some 2 :=
  claim9_set_next_spec emptyChain 0 1 2 (by decide) (by decide)

/-- Claim C10. Every object-family class (object, document, activity,
intransitiveActivity, collection, collectionPage) resolves to the instance
itself unchanged, with or without a resolver argument, and the result
never depends on the resolver — only links perform actual resolution. -/
theorem claim10_object_family_resolve_identity {α ρ : Type}
    (fam : ObjectFamily) (o : α) (r : Option ρ) :
    familyResolve fam o r = o ∧ familyResolve fam o r = familyResolve fam o (none : Option ρ) := by
  cases fam <;> exact ⟨rfl, rfl⟩

end ActivityStreams
